import Mathlib

/-!
Verification of the `SocketsManager` connection pool and the
`UnsupportedSendPattern` exception from
`oslo_messaging/_drivers/zmq_driver/client/publishers/zmq_publisher_base.py`.

The pool state is embedded shallowly: a socket is identified by its index in
the list of all sockets ever created by the pool; its observable state is the
accumulated list of hosts connected via `connect_to_host`, the addresses
connected via `connect_to_address`, and a closed flag.  The dictionary
`outbound_sockets` (keyed by `str(target)`, Python dict update semantics:
in-place overwrite of an existing key, append of a new key) is an association
list from target strings to `(socket id, timestamp)` pairs.  Raising is
modelled with `Except`; since Python exceptions leave prior mutations in
place, every operation returns the resulting state next to the `Except`
result.  External collaborators (the matchmaker `get_hosts`, the success of
each `connect_to_host`, `zmq_names.socket_type_str` of the listener type, the
broker address from `zmq_address.get_broker_address`, and the configuration
value `zmq_target_expire`) are parameters gathered in `Env`.  A ghost field
`lookups` records each matchmaker lookup as the pair (target, listener type
string) at the single call site of `matchmaker.get_hosts`.
-/

namespace ZmqPub

/-- A host descriptor returned by the matchmaker (external, opaque). -/
abbrev Host := String

/-- A target is used through its stable string representation `str(target)`,
so it is modelled directly by that string. -/
abbrev Target := String

/-- Observable state of one `ZmqSocket` as the pool uses it: hosts connected
via `connect_to_host` (accumulated in call order), addresses connected via
`connect_to_address`, and whether `close` has been called. -/
structure SocketState where
  connected_hosts : List Host
  connected_addrs : List String
  closed : Bool
deriving Repr, DecidableEq

/-- A freshly constructed `ZmqSocket(conf, zmq_context, socket_type)`:
connected to nothing, not closed. -/
def SocketState.fresh : SocketState := ⟨[], [], false⟩

/-- External collaborators and configuration of one `SocketsManager`.
`get_hosts` is `matchmaker.get_hosts` (an `Except.error` models it raising,
for example a discovery error); `connect_ok h = false` models
`socket.connect_to_host h` raising; `listener_type_str` is
`zmq_names.socket_type_str(listener_type)`; `zmq_target_expire` is
`conf.zmq_target_expire`; `broker_address` is
`zmq_address.get_broker_address(conf)` (a statically derived address). -/
structure Env where
  get_hosts : Target → String → Except String (List Host)
  connect_ok : Host → Bool
  listener_type_str : String
  zmq_target_expire : Int
  broker_address : String

/-- Mutable state of one `SocketsManager`: all sockets ever created by the
pool (index = socket id, in creation order), the `outbound_sockets`
dictionary, and the ghost log of matchmaker lookups. -/
structure SMState where
  sockets : List SocketState
  outbound_sockets : List (Target × Nat × Int)
  lookups : List (Target × String)
deriving Repr, DecidableEq

/-- Dictionary read: `self.outbound_sockets[key]`, first (and only) entry for
the key. -/
def lookupSock : List (Target × Nat × Int) → Target → Option (Nat × Int)
  | [], _ => none
  | (k, s, t) :: rest, key => if k = key then some (s, t) else lookupSock rest key

/-- Dictionary write `self.outbound_sockets[key] = (sid, tm)`: overwrite in
place when the key is present, append otherwise (Python dict semantics). -/
def storeSock (key : Target) (sid : Nat) (tm : Int) :
    List (Target × Nat × Int) → List (Target × Nat × Int)
  | [] => [(key, sid, tm)]
  | (k, s, t) :: rest =>
      if k = key then (key, sid, tm) :: rest else (k, s, t) :: storeSock key sid tm rest

/-- Apply `f` to the socket at index `sid`, leaving all others unchanged. -/
def modifyNthSock : List SocketState → Nat → (SocketState → SocketState) → List SocketState
  | [], _, _ => []
  | s :: rest, 0, f => f s :: rest
  | s :: rest, n + 1, f => s :: modifyNthSock rest n f

/-- Embedding of `SocketsManager._track_socket(socket, target)`:
`self.outbound_sockets[str(target)] = (socket, time.time())`. -/
def track_socket (st : SMState) (sid : Nat) (target : Target) (now : Int) : SMState :=
  { st with outbound_sockets := storeSock target sid now st.outbound_sockets }

/-- The loop `for host in hosts: socket.connect_to_host(host)`.  Hosts
connected before a failing one stay connected (Python mutation persists across
a raised exception). -/
def connect_hosts (env : Env) (st : SMState) (sid : Nat) :
    List Host → Except String Unit × SMState
  | [] => (.ok (), st)
  | h :: rest =>
      if env.connect_ok h then
        let addHost : SocketState → SocketState :=
          fun s => { s with connected_hosts := s.connected_hosts ++ [h] }
        connect_hosts env { st with sockets := modifyNthSock st.sockets sid addHost } sid rest
      else (.error ("connect_to_host failed on " ++ h), st)

/-- Embedding of `SocketsManager._get_hosts_and_connect(socket, target)`: query the
matchmaker for `(target, socket_type_str(listener_type))`, connect the socket
to every returned host, then track the socket (which stamps the current
time).  Tracking happens only after the lookup and every connect succeeded. -/
def get_hosts_and_connect (env : Env) (now : Int) (st : SMState) (sid : Nat)
    (target : Target) : Except String Unit × SMState :=
  let st0 : SMState := { st with lookups := st.lookups ++ [(target, env.listener_type_str)] }
  match env.get_hosts target env.listener_type_str with
  | .error e => (.error e, st0)
  | .ok hosts =>
      match connect_hosts env st0 sid hosts with
      | (.error e, st1) => (.error e, st1)
      | (.ok _, st1) => (.ok (), track_socket st1 sid target now)

/-- Embedding of `SocketsManager._check_for_new_hosts(target)`: read the tracked
`(socket, tm)` for the target and refresh via `_get_hosts_and_connect`
exactly when `0 <= conf.zmq_target_expire <= time.time() - tm`; return the
socket.  The `none` branch is unreachable: the method is only called when the
key is present. -/
def check_for_new_hosts (env : Env) (now : Int) (st : SMState) (target : Target) :
    Except String Nat × SMState :=
  match lookupSock st.outbound_sockets target with
  | none => (.error "KeyError", st)
  | some (sid, tm) =>
      if 0 ≤ env.zmq_target_expire ∧ env.zmq_target_expire ≤ now - tm then
        match get_hosts_and_connect env now st sid target with
        | (.error e, st1) => (.error e, st1)
        | (.ok _, st1) => (.ok sid, st1)
      else (.ok sid, st)

/-- Embedding of `SocketsManager.get_socket(target)`: on a cache hit delegate to
`_check_for_new_hosts`; on a miss create a fresh socket on the shared context
and run `_get_hosts_and_connect` on it. -/
def get_socket (env : Env) (now : Int) (st : SMState) (target : Target) :
    Except String Nat × SMState :=
  if (lookupSock st.outbound_sockets target).isSome then
    check_for_new_hosts env now st target
  else
    let sid := st.sockets.length
    let st1 : SMState := { st with sockets := st.sockets ++ [SocketState.fresh] }
    match get_hosts_and_connect env now st1 sid target with
    | (.error e, st2) => (.error e, st2)
    | (.ok _, st2) => (.ok sid, st2)

/-- Embedding of `SocketsManager.get_socket_to_broker(target)`: always create a fresh
socket, track it (overwriting any entry for `str(target)`), then connect it
to the statically derived broker address. -/
def get_socket_to_broker (env : Env) (now : Int) (st : SMState) (target : Target) :
    Except String Nat × SMState :=
  let sid := st.sockets.length
  let st1 : SMState := { st with sockets := st.sockets ++ [SocketState.fresh] }
  let st2 := track_socket st1 sid target now
  let addAddr : SocketState → SocketState :=
    fun s => { s with connected_addrs := s.connected_addrs ++ [env.broker_address] }
  let st3 : SMState := { st2 with sockets := modifyNthSock st2.sockets sid addAddr }
  (.ok sid, st3)

/-- Effect of `socket.close()` on one socket: set the closed flag.  Closing
an already closed socket is a no-op (the transport close is idempotent and
does not raise). -/
def closeOne (s : SocketState) : SocketState := { s with closed := true }

/-- Embedding of `socket.close()` on the socket with the given id. -/
def close_socket (st : SMState) (sid : Nat) : SMState :=
  { st with sockets := modifyNthSock st.sockets sid closeOne }

/-- Embedding of `SocketsManager.cleanup()`:
`for socket, tm in self.outbound_sockets.values(): socket.close()`. -/
def cleanup (st : SMState) : SMState :=
  st.outbound_sockets.foldl (fun s e => close_socket s e.2.1) st

/-- Message of `UnsupportedSendPattern(pattern_name)`:
`_LE("Sending pattern %s is unsupported.") % pattern_name`. -/
def unsupported_send_pattern_errmsg (pattern_name : String) : String :=
  "Sending pattern " ++ pattern_name ++ " is unsupported."

/-- Append a list of hosts to the connected hosts of a socket: the cumulative
effect of a successful `for host in hosts: socket.connect_to_host(host)`. -/
def appendHosts (hs : List Host) (s : SocketState) : SocketState :=
  { s with connected_hosts := s.connected_hosts ++ hs }

/-! Concrete environments and states used by counterexamples and witnesses. -/

/-- Environment whose matchmaker always returns an empty host list; expiry
sentinel -1 (never expire). -/
def envOkEmpty : Env :=
  { get_hosts := fun _ _ => .ok []
    connect_ok := fun _ => true
    listener_type_str := "ROUTER"
    zmq_target_expire := -1
    broker_address := "tcp://broker:1234" }

/-- Environment whose matchmaker returns one host and whose expiry threshold
is 10 time units. -/
def envTen : Env :=
  { get_hosts := fun _ _ => .ok ["host1"]
    connect_ok := fun _ => true
    listener_type_str := "ROUTER"
    zmq_target_expire := 10
    broker_address := "tcp://broker:1234" }

/-- Environment whose matchmaker always raises; expiry threshold 0 (always
refresh). -/
def envErr : Env :=
  { get_hosts := fun _ _ => .error "discovery boom"
    connect_ok := fun _ => true
    listener_type_str := "ROUTER"
    zmq_target_expire := 0
    broker_address := "tcp://broker:1234" }

/-- The empty pool state. -/
def st0 : SMState := ⟨[], [], []⟩

/-- Pool state after a successful `get_socket envOkEmpty 0 st0 "topic-A"`. -/
def stA : SMState := (get_socket envOkEmpty 0 st0 "topic-A").2

/-- Pool state after a successful `get_socket envTen 0 st0 "topic-A"`. -/
def stB : SMState := (get_socket envTen 0 st0 "topic-A").2

/-- A pool state holding one tracked socket for target "t" at timestamp 0. -/
def stC : SMState := ⟨[⟨[], [], false⟩], [("t", 0, 0)], [("t", "ROUTER")]⟩

/-- Pool state after `get_socket_to_broker envOkEmpty 0 st0 "topic-A"`. -/
def stBroker : SMState := (get_socket_to_broker envOkEmpty 0 st0 "topic-A").2

/-- Pool state after a second `get_socket_to_broker` call for the same
target. -/
def stBroker2 : SMState := (get_socket_to_broker envOkEmpty 1 stBroker "topic-A").2

/-! Helper lemmas. -/

theorem lookupSock_storeSock_self (k : Target) (sid : Nat) (tm : Int) :
    ∀ l : List (Target × Nat × Int), lookupSock (storeSock k sid tm l) k = some (sid, tm) := by
  intro l
  induction l with
  | nil => simp [storeSock, lookupSock]
  | cons e rest ih =>
      obtain ⟨k', s, t⟩ := e
      by_cases h : k' = k
      · simp [storeSock, h, lookupSock]
      · simp [storeSock, h, lookupSock, ih]

theorem lookupSock_storeSock_other (k k' : Target) (sid : Nat) (tm : Int) (hne : k' ≠ k) :
    ∀ l : List (Target × Nat × Int),
      lookupSock (storeSock k sid tm l) k' = lookupSock l k' := by
  intro l
  induction l with
  | nil => simp [storeSock, lookupSock, Ne.symm hne]
  | cons e rest ih =>
      obtain ⟨k'', s, t⟩ := e
      by_cases h : k'' = k
      · subst h
        simp [storeSock, lookupSock, Ne.symm hne]
      · simp [storeSock, h, lookupSock, ih]

theorem modifyNthSock_get? (f : SocketState → SocketState) :
    ∀ (l : List SocketState) (n i : Nat),
      (modifyNthSock l n f).get? i = if i = n then (l.get? i).map f else l.get? i := by
  intro l
  induction l with
  | nil => intro n i; simp [modifyNthSock]
  | cons s rest ih =>
      intro n i
      cases n with
      | zero =>
          cases i with
          | zero => simp [modifyNthSock]
          | succ j => simp [modifyNthSock]
      | succ m =>
          cases i with
          | zero => simp [modifyNthSock]
          | succ j =>
              simp only [modifyNthSock, List.get?]
              rw [ih]
              by_cases h : j = m
              · simp [h]
              · simp [h]

theorem modifyNthSock_congr (f g : SocketState → SocketState) (hfg : ∀ s, f s = g s) :
    ∀ (l : List SocketState) (n : Nat), modifyNthSock l n f = modifyNthSock l n g := by
  intro l
  induction l with
  | nil => intro n; rfl
  | cons s rest ih =>
      intro n
      cases n with
      | zero => simp [modifyNthSock, hfg]
      | succ m => simp [modifyNthSock, ih]

theorem modifyNthSock_id (l : List SocketState) (n : Nat) :
    modifyNthSock l n (fun s => s) = l := by
  induction l generalizing n with
  | nil => rfl
  | cons s rest ih =>
      cases n with
      | zero => simp [modifyNthSock]
      | succ m => simp [modifyNthSock, ih]

theorem modifyNthSock_comp (f g : SocketState → SocketState) :
    ∀ (l : List SocketState) (n : Nat),
      modifyNthSock (modifyNthSock l n f) n g = modifyNthSock l n (fun s => g (f s)) := by
  intro l
  induction l with
  | nil => intro n; rfl
  | cons s rest ih =>
      intro n
      cases n with
      | zero => simp [modifyNthSock]
      | succ m => simp [modifyNthSock, ih]

theorem modifyNthSock_length (f : SocketState → SocketState) :
    ∀ (l : List SocketState) (n : Nat), (modifyNthSock l n f).length = l.length := by
  intro l
  induction l with
  | nil => intro n; rfl
  | cons s rest ih =>
      intro n
      cases n with
      | zero => simp [modifyNthSock]
      | succ m => simp [modifyNthSock, ih]

theorem modifyNthSock_append_length (f : SocketState → SocketState) (x : SocketState) :
    ∀ l : List SocketState, modifyNthSock (l ++ [x]) l.length f = l ++ [f x] := by
  intro l
  induction l with
  | nil => rfl
  | cons s rest ih => simp [modifyNthSock, ih]

theorem appendHosts_nil (s : SocketState) : appendHosts [] s = s := by
  simp [appendHosts]

theorem connect_hosts_ok (env : Env) (sid : Nat) :
    ∀ (hs : List Host) (st : SMState), (∀ h ∈ hs, env.connect_ok h = true) →
      connect_hosts env st sid hs =
        (.ok (), { st with sockets := modifyNthSock st.sockets sid (appendHosts hs) }) := by
  intro hs
  induction hs with
  | nil =>
      intro st _
      have h1 : modifyNthSock st.sockets sid (appendHosts []) = st.sockets := by
        rw [modifyNthSock_congr (appendHosts []) (fun s => s) appendHosts_nil]
        exact modifyNthSock_id st.sockets sid
      simp [connect_hosts, h1]
  | cons h rest ih =>
      intro st hok
      have hh : env.connect_ok h = true := hok h (List.mem_cons_self h rest)
      have hrest : ∀ h2 ∈ rest, env.connect_ok h2 = true :=
        fun h2 hm => hok h2 (List.mem_cons_of_mem h hm)
      simp only [connect_hosts, hh, if_true]
      rw [ih _ hrest]
      have hcomp :
          modifyNthSock
            (modifyNthSock st.sockets sid
              (fun s => { s with connected_hosts := s.connected_hosts ++ [h] }))
            sid (appendHosts rest) =
          modifyNthSock st.sockets sid (appendHosts (h :: rest)) := by
        rw [modifyNthSock_comp]
        refine modifyNthSock_congr _ _ (fun s => ?_) st.sockets sid
        simp [appendHosts]
      simp [hcomp]

theorem connect_hosts_frame (env : Env) (sid : Nat) :
    ∀ (hs : List Host) (st : SMState),
      (connect_hosts env st sid hs).2.outbound_sockets = st.outbound_sockets ∧
      (connect_hosts env st sid hs).2.lookups = st.lookups := by
  intro hs
  induction hs with
  | nil => intro st; exact ⟨rfl, rfl⟩
  | cons h rest ih =>
      intro st
      by_cases hh : env.connect_ok h = true
      · simp only [connect_hosts, hh, if_true]
        exact ih _
      · simp [connect_hosts, if_neg hh]

theorem get_hosts_and_connect_ok (env : Env) (now : Int) (st : SMState) (sid : Nat)
    (target : Target) (hosts : List Host)
    (hmm : env.get_hosts target env.listener_type_str = .ok hosts)
    (hconn : ∀ h ∈ hosts, env.connect_ok h = true) :
    get_hosts_and_connect env now st sid target =
      (.ok (), ⟨modifyNthSock st.sockets sid (appendHosts hosts),
                storeSock target sid now st.outbound_sockets,
                st.lookups ++ [(target, env.listener_type_str)]⟩) := by
  unfold get_hosts_and_connect
  simp only [hmm]
  rw [connect_hosts_ok env sid hosts _ hconn]
  rfl

theorem get_hosts_and_connect_err_frame (env : Env) (now : Int) (st : SMState) (sid : Nat)
    (target : Target) (e : String)
    (herr : (get_hosts_and_connect env now st sid target).1 = .error e) :
    (get_hosts_and_connect env now st sid target).2.outbound_sockets = st.outbound_sockets := by
  unfold get_hosts_and_connect at herr ⊢
  cases hmm : env.get_hosts target env.listener_type_str with
  | error e2 => simp [hmm]
  | ok hosts =>
      simp only [hmm] at herr ⊢
      obtain ⟨r, st1, hch⟩ : ∃ r st1,
          connect_hosts env
            { st with lookups := st.lookups ++ [(target, env.listener_type_str)] } sid hosts =
            (r, st1) := ⟨_, _, rfl⟩
      have hf := (connect_hosts_frame env sid hosts
        { st with lookups := st.lookups ++ [(target, env.listener_type_str)] }).1
      rw [hch] at herr hf ⊢
      cases r with
      | ok u => simp at herr
      | error e3 => exact hf

theorem get_socket_hit_fresh (env : Env) (now : Int) (st : SMState) (target : Target)
    (sid : Nat) (tm : Int)
    (hhit : lookupSock st.outbound_sockets target = some (sid, tm))
    (hc : ¬(0 ≤ env.zmq_target_expire ∧ env.zmq_target_expire ≤ now - tm)) :
    get_socket env now st target = (.ok sid, st) := by
  unfold get_socket check_for_new_hosts
  simp only [hhit, Option.isSome_some, if_true, if_neg hc]

theorem get_socket_hit_refresh_ok (env : Env) (now : Int) (st : SMState) (target : Target)
    (sid : Nat) (tm : Int) (hosts : List Host)
    (hhit : lookupSock st.outbound_sockets target = some (sid, tm))
    (hc : 0 ≤ env.zmq_target_expire ∧ env.zmq_target_expire ≤ now - tm)
    (hmm : env.get_hosts target env.listener_type_str = .ok hosts)
    (hconn : ∀ h ∈ hosts, env.connect_ok h = true) :
    get_socket env now st target =
      (.ok sid, ⟨modifyNthSock st.sockets sid (appendHosts hosts),
                 storeSock target sid now st.outbound_sockets,
                 st.lookups ++ [(target, env.listener_type_str)]⟩) := by
  unfold get_socket check_for_new_hosts
  simp only [hhit, Option.isSome_some, if_true, if_pos hc]
  rw [get_hosts_and_connect_ok env now st sid target hosts hmm hconn]

theorem get_socket_hit_refresh_err (env : Env) (now : Int) (st : SMState) (target : Target)
    (sid : Nat) (tm : Int) (e : String)
    (hhit : lookupSock st.outbound_sockets target = some (sid, tm))
    (hc : 0 ≤ env.zmq_target_expire ∧ env.zmq_target_expire ≤ now - tm)
    (herr : (get_hosts_and_connect env now st sid target).1 = .error e) :
    (get_socket env now st target).1 = .error e ∧
    (get_socket env now st target).2.outbound_sockets = st.outbound_sockets := by
  have hfr := get_hosts_and_connect_err_frame env now st sid target e herr
  unfold get_socket check_for_new_hosts
  simp only [hhit, Option.isSome_some, if_true, if_pos hc]
  obtain ⟨r, st1, hch⟩ : ∃ r st1,
      get_hosts_and_connect env now st sid target = (r, st1) := ⟨_, _, rfl⟩
  rw [hch] at herr hfr ⊢
  cases r with
  | ok u => simp at herr
  | error e3 =>
      constructor
      · simpa using herr
      · simpa using hfr

theorem get_socket_miss_ok (env : Env) (now : Int) (st : SMState) (target : Target)
    (hosts : List Host)
    (hmiss : lookupSock st.outbound_sockets target = none)
    (hmm : env.get_hosts target env.listener_type_str = .ok hosts)
    (hconn : ∀ h ∈ hosts, env.connect_ok h = true) :
    get_socket env now st target =
      (.ok st.sockets.length,
       ⟨st.sockets ++ [⟨hosts, [], false⟩],
        storeSock target st.sockets.length now st.outbound_sockets,
        st.lookups ++ [(target, env.listener_type_str)]⟩) := by
  unfold get_socket
  simp only [hmiss, Option.isSome_none, Bool.false_eq_true, if_false]
  rw [get_hosts_and_connect_ok env now
    { st with sockets := st.sockets ++ [SocketState.fresh] } st.sockets.length target
    hosts hmm hconn]
  have h1 : modifyNthSock (st.sockets ++ [SocketState.fresh]) st.sockets.length
      (appendHosts hosts) = st.sockets ++ [appendHosts hosts SocketState.fresh] :=
    modifyNthSock_append_length (appendHosts hosts) SocketState.fresh st.sockets
  have h2 : appendHosts hosts SocketState.fresh = ⟨hosts, [], false⟩ := by
    simp [appendHosts, SocketState.fresh]
  simp [h1, h2]

theorem get_socket_miss_err (env : Env) (now : Int) (st : SMState) (target : Target)
    (e : String)
    (hmiss : lookupSock st.outbound_sockets target = none)
    (herr : (get_socket env now st target).1 = .error e) :
    (get_socket env now st target).2.outbound_sockets = st.outbound_sockets := by
  unfold get_socket at herr ⊢
  simp only [hmiss, Option.isSome_none, Bool.false_eq_true, if_false] at herr ⊢
  obtain ⟨r, st2, hch⟩ : ∃ r st2,
      get_hosts_and_connect env now
        { st with sockets := st.sockets ++ [SocketState.fresh] } st.sockets.length target =
        (r, st2) := ⟨_, _, rfl⟩
  have hfr : (get_hosts_and_connect env now
      { st with sockets := st.sockets ++ [SocketState.fresh] } st.sockets.length
      target).1 = .error e →
      (get_hosts_and_connect env now
        { st with sockets := st.sockets ++ [SocketState.fresh] } st.sockets.length
        target).2.outbound_sockets = st.outbound_sockets :=
    fun h => get_hosts_and_connect_err_frame env now _ _ _ e h
  rw [hch] at herr hfr ⊢
  cases r with
  | ok u => simp at herr
  | error e3 =>
      have h4 := hfr (by simpa using herr)
      simpa using h4

theorem closeOne_comp : closeOne ∘ closeOne = closeOne := by
  funext s
  rfl

theorem cleanup_fold_frame :
    ∀ (l : List (Target × Nat × Int)) (st : SMState),
      (l.foldl (fun s e => close_socket s e.2.1) st).outbound_sockets = st.outbound_sockets ∧
      (l.foldl (fun s e => close_socket s e.2.1) st).lookups = st.lookups := by
  intro l
  induction l with
  | nil => intro st; exact ⟨rfl, rfl⟩
  | cons e rest ih =>
      intro st
      simp only [List.foldl_cons]
      exact ih (close_socket st e.2.1)

theorem cleanup_fold_get? :
    ∀ (l : List (Target × Nat × Int)) (st : SMState) (i : Nat),
      (l.foldl (fun s e => close_socket s e.2.1) st).sockets.get? i =
        if i ∈ l.map (fun e => e.2.1) then (st.sockets.get? i).map closeOne
        else st.sockets.get? i := by
  intro l
  induction l with
  | nil => intro st i; simp
  | cons e rest ih =>
      intro st i
      obtain ⟨k, sid, tm⟩ := e
      simp only [List.foldl_cons, List.map_cons, List.mem_cons]
      rw [ih]
      have hcl : (close_socket st sid).sockets.get? i =
          if i = sid then (st.sockets.get? i).map closeOne else st.sockets.get? i := by
        simp only [close_socket]
        exact modifyNthSock_get? closeOne st.sockets sid i
      by_cases h1 : i = sid
      · rw [hcl, if_pos h1, if_pos (Or.inl h1)]
        by_cases h2 : i ∈ rest.map (fun e => e.2.1)
        · rw [if_pos h2, Option.map_map, closeOne_comp]
        · rw [if_neg h2]
      · rw [hcl, if_neg h1]
        by_cases h2 : i ∈ rest.map (fun e => e.2.1)
        · rw [if_pos h2, if_pos (Or.inr h2)]
        · rw [if_neg h2, if_neg (not_or.mpr ⟨h1, h2⟩)]

theorem cleanup_outbound (st : SMState) :
    (cleanup st).outbound_sockets = st.outbound_sockets :=
  (cleanup_fold_frame st.outbound_sockets st).1

theorem cleanup_lookups (st : SMState) : (cleanup st).lookups = st.lookups :=
  (cleanup_fold_frame st.outbound_sockets st).2

theorem cleanup_get? (st : SMState) (i : Nat) :
    (cleanup st).sockets.get? i =
      if i ∈ st.outbound_sockets.map (fun e => e.2.1) then
        (st.sockets.get? i).map closeOne
      else st.sockets.get? i :=
  cleanup_fold_get? st.outbound_sockets st i

theorem SMState.ext_fields (a b : SMState) (h1 : a.sockets = b.sockets)
    (h2 : a.outbound_sockets = b.outbound_sockets) (h3 : a.lookups = b.lookups) :
    a = b := by
  cases a
  cases b
  simp_all

theorem lookupSock_mem_sids (key : Target) (sid : Nat) (tm : Int) :
    ∀ l : List (Target × Nat × Int),
      lookupSock l key = some (sid, tm) → sid ∈ l.map (fun e => e.2.1) := by
  intro l
  induction l with
  | nil => intro h; simp [lookupSock] at h
  | cons e rest ih =>
      obtain ⟨k, s, t⟩ := e
      intro h
      simp only [lookupSock] at h
      by_cases hk : k = key
      · rw [if_pos hk] at h
        simp only [Option.some.injEq, Prod.mk.injEq] at h
        simp [h.1]
      · rw [if_neg hk] at h
        simp [ih h]

theorem cleanup_closes_tracked (st : SMState) (key : Target) (sid : Nat) (tm : Int)
    (hhit : lookupSock st.outbound_sockets key = some (sid, tm)) :
    ∀ s, (cleanup st).sockets.get? sid = some s → s.closed = true := by
  intro s hs
  rw [cleanup_get? st sid,
    if_pos (lookupSock_mem_sids key sid tm st.outbound_sockets hhit)] at hs
  cases hget : st.sockets.get? sid with
  | none =>
      rw [hget] at hs
      simp at hs
  | some s0 =>
      rw [hget] at hs
      have hs3 : some (closeOne s0) = some s := hs
      have hs2 : closeOne s0 = s := Option.some.inj hs3
      rw [← hs2]
      rfl

theorem cleanup_idem (st : SMState) : cleanup (cleanup st) = cleanup st := by
  apply SMState.ext_fields
  · apply List.ext_get?
    intro i
    rw [cleanup_get? (cleanup st) i, cleanup_outbound, cleanup_get? st i]
    by_cases hm : i ∈ st.outbound_sockets.map (fun e => e.2.1)
    · rw [if_pos hm, if_pos hm, Option.map_map, closeOne_comp]
    · rw [if_neg hm, if_neg hm]
  · rw [cleanup_outbound, cleanup_outbound]
  · rw [cleanup_lookups, cleanup_lookups]

theorem get_socket_to_broker_eq (env : Env) (now : Int) (st : SMState) (target : Target) :
    get_socket_to_broker env now st target =
      (.ok st.sockets.length,
       ⟨st.sockets ++ [⟨[], [env.broker_address], false⟩],
        storeSock target st.sockets.length now st.outbound_sockets,
        st.lookups⟩) := by
  unfold get_socket_to_broker track_socket
  simp only []
  rw [modifyNthSock_append_length]
  rfl

theorem get_hosts_and_connect_mm_err (env : Env) (now : Int) (st : SMState) (sid : Nat)
    (target : Target) (e : String)
    (hmm : env.get_hosts target env.listener_type_str = .error e) :
    get_hosts_and_connect env now st sid target =
      (.error e, { st with lookups := st.lookups ++ [(target, env.listener_type_str)] }) := by
  unfold get_hosts_and_connect
  simp only [hmm]

theorem get_socket_miss_err1 (env : Env) (now : Int) (st : SMState) (target : Target)
    (e : String)
    (hmiss : lookupSock st.outbound_sockets target = none)
    (herr : (get_hosts_and_connect env now
      { st with sockets := st.sockets ++ [SocketState.fresh] } st.sockets.length
      target).1 = .error e) :
    (get_socket env now st target).1 = .error e := by
  unfold get_socket
  simp only [hmiss, Option.isSome_none, Bool.false_eq_true, if_false]
  obtain ⟨r, st2, hch⟩ : ∃ r st2,
      get_hosts_and_connect env now
        { st with sockets := st.sockets ++ [SocketState.fresh] } st.sockets.length target =
        (r, st2) := ⟨_, _, rfl⟩
  rw [hch] at herr ⊢
  cases r with
  | ok u => simp at herr
  | error e3 => simpa using herr

theorem get_socket_hit_refresh_err_inv (env : Env) (now : Int) (st : SMState)
    (target : Target) (sid : Nat) (tm : Int) (e : String)
    (hhit : lookupSock st.outbound_sockets target = some (sid, tm))
    (hc : 0 ≤ env.zmq_target_expire ∧ env.zmq_target_expire ≤ now - tm)
    (herr : (get_socket env now st target).1 = .error e) :
    (get_hosts_and_connect env now st sid target).1 = .error e := by
  unfold get_socket check_for_new_hosts at herr
  simp only [hhit, Option.isSome_some, if_true, if_pos hc] at herr
  obtain ⟨r, st1, hch⟩ : ∃ r st1,
      get_hosts_and_connect env now st sid target = (r, st1) := ⟨_, _, rfl⟩
  rw [hch] at herr ⊢
  cases r with
  | ok u => simp at herr
  | error e3 => simpa using herr

theorem get_socket_ok_same_sid (env : Env) (now : Int) (st : SMState) (target : Target)
    (sid : Nat) (tm : Int)
    (hhit : lookupSock st.outbound_sockets target = some (sid, tm)) :
    ∀ s, (get_socket env now st target).1 = .ok s → s = sid := by
  intro s hok
  unfold get_socket check_for_new_hosts at hok
  simp only [hhit, Option.isSome_some, if_true] at hok
  by_cases hc : 0 ≤ env.zmq_target_expire ∧ env.zmq_target_expire ≤ now - tm
  · rw [if_pos hc] at hok
    obtain ⟨r, st1, hch⟩ : ∃ r st1,
        get_hosts_and_connect env now st sid target = (r, st1) := ⟨_, _, rfl⟩
    rw [hch] at hok
    cases r with
    | ok u =>
        have h5 : sid = s := by simpa using hok
        exact h5.symm
    | error e => simp at hok
  · rw [if_neg hc] at hok
    have h5 : sid = s := by simpa using hok
    exact h5.symm

theorem mem_storeSock_of_nodup (key : Target) (sid : Nat) (tm : Int) :
    ∀ l : List (Target × Nat × Int), (l.map Prod.fst).Nodup →
      ∀ e ∈ storeSock key sid tm l, e = (key, sid, tm) ∨ (e ∈ l ∧ e.1 ≠ key) := by
  intro l
  induction l with
  | nil =>
      intro _ e he
      simp only [storeSock, List.mem_singleton] at he
      exact Or.inl he
  | cons hd rest ih =>
      obtain ⟨k, s, t⟩ := hd
      intro hnd e he
      simp only [List.map_cons, List.nodup_cons] at hnd
      by_cases hk : k = key
      · rw [storeSock, if_pos hk] at he
        rcases List.mem_cons.mp he with h1 | h1
        · exact Or.inl h1
        · refine Or.inr ⟨List.mem_cons_of_mem _ h1, ?_⟩
          intro hekey
          apply hnd.1
          rw [hk]
          rw [← hekey]
          exact List.mem_map_of_mem Prod.fst h1
      · rw [storeSock, if_neg hk] at he
        rcases List.mem_cons.mp he with h1 | h1
        · exact Or.inr ⟨by simp [h1], by simp [h1, hk]⟩
        · rcases ih hnd.2 e h1 with h2 | h2
          · exact Or.inl h2
          · exact Or.inr ⟨List.mem_cons_of_mem _ h2.1, h2.2⟩

/-- C4: for a target with no cache entry, `get_socket` creates one fresh
socket, performs exactly one matchmaker lookup for (target, connection kind),
connects it to every returned host, records the entry with the current
timestamp and returns the socket; an empty host list still yields a cached,
connected-to-nothing socket and no error. -/
theorem C4_get_socket_miss_creates_and_caches (env : Env) (now : Int) (st : SMState)
    (target : Target) (hosts : List Host)
    (hmiss : lookupSock st.outbound_sockets target = none)
    (hmm : env.get_hosts target env.listener_type_str = .ok hosts)
    (hconn : ∀ h ∈ hosts, env.connect_ok h = true) :
    get_socket env now st target =
      (.ok st.sockets.length,
       ⟨st.sockets ++ [⟨hosts, [], false⟩],
        storeSock target st.sockets.length now st.outbound_sockets,
        st.lookups ++ [(target, env.listener_type_str)]⟩) ∧
    lookupSock (get_socket env now st target).2.outbound_sockets target =
      some (st.sockets.length, now) := by
  have h := get_socket_miss_ok env now st target hosts hmiss hmm hconn
  refine ⟨h, ?_⟩
  rw [h]
  exact lookupSock_storeSock_self target st.sockets.length now st.outbound_sockets

/-- Witness for C4 at the empty-host-set edge case: the fresh socket is
cached connected to nothing and the call succeeds. -/
theorem C4_witness :
    get_socket envOkEmpty 0 st0 "topic-A" =
      (.ok 0, ⟨[⟨[], [], false⟩], [("topic-A", 0, 0)], [("topic-A", "ROUTER")]⟩) ∧
    lookupSock (get_socket envOkEmpty 0 st0 "topic-A").2.outbound_sockets "topic-A" =
      some (0, 0) :=
  C4_get_socket_miss_creates_and_caches envOkEmpty 0 st0 "topic-A" [] (by rfl) (by rfl)
    (fun h hm => absurd hm (List.not_mem_nil h))

/-- C5: for a cached target whose elapsed time is strictly below a
non-negative expiry threshold, `get_socket` performs zero matchmaker lookups,
returns the cached socket and leaves the whole pool state (including the
timestamp) unchanged. -/
theorem C5_get_socket_fresh_hit_no_refresh (env : Env) (now : Int) (st : SMState)
    (target : Target) (sid : Nat) (tm : Int)
    (hhit : lookupSock st.outbound_sockets target = some (sid, tm))
    (hexp : 0 ≤ env.zmq_target_expire)
    (hfresh : now - tm < env.zmq_target_expire) :
    get_socket env now st target = (.ok sid, st) :=
  get_socket_hit_fresh env now st target sid tm hhit
    (fun hc => absurd hfresh (not_lt.mpr hc.2))

/-- Witness for C5: with expiry threshold 10, a second lookup at time 5 for
an entry stamped at time 0 returns the cached socket and changes nothing. -/
theorem C5_witness : get_socket envTen 5 stB "topic-A" = (.ok 0, stB) :=
  C5_get_socket_fresh_hit_no_refresh envTen 5 stB "topic-A" 0 0 (by rfl) (by decide)
    (by decide)

/-- C8: the message of `UnsupportedSendPattern(p)` contains the pattern name
`p` as a substring, for every pattern name. -/
theorem C8_unsupported_send_pattern_msg_mentions_name (p : String) :
    List.IsInfix p.data (unsupported_send_pattern_errmsg p).data := by
  refine ⟨"Sending pattern ".data, " is unsupported.".data, ?_⟩
  simp [unsupported_send_pattern_errmsg, String.data_append]

/-- C6: when the matchmaker lookup raises, `get_socket` propagates the very
same error, both on a cache miss and on a cache hit whose refresh condition
holds. -/
theorem C6_discovery_error_propagates (env : Env) (now : Int) (st : SMState)
    (target : Target) (e : String)
    (hmm : env.get_hosts target env.listener_type_str = .error e) :
    (lookupSock st.outbound_sockets target = none →
       (get_socket env now st target).1 = .error e) ∧
    (∀ sid tm, lookupSock st.outbound_sockets target = some (sid, tm) →
       0 ≤ env.zmq_target_expire → env.zmq_target_expire ≤ now - tm →
       (get_socket env now st target).1 = .error e) := by
  constructor
  · intro hmiss
    apply get_socket_miss_err1 env now st target e hmiss
    rw [get_hosts_and_connect_mm_err env now _ _ target e hmm]
  · intro sid tm hhit h0 h1
    exact (get_socket_hit_refresh_err env now st target sid tm e hhit ⟨h0, h1⟩
      (by rw [get_hosts_and_connect_mm_err env now st sid target e hmm])).1

/-- Witness for C6: a raising matchmaker makes `get_socket` on the empty pool
fail with the same error. -/
theorem C6_witness : (get_socket envErr 0 st0 "t").1 = .error "discovery boom" :=
  (C6_discovery_error_propagates envErr 0 st0 "t" "discovery boom" (by rfl)).1 (by rfl)

/-- C7: a failed `get_socket` call leaves the `outbound_sockets` dictionary
exactly as it was: either an entry is fully recorded (on success) or nothing
is inserted or modified, never a partial entry. -/
theorem C7_failed_get_socket_leaves_cache_unchanged (env : Env) (now : Int)
    (st : SMState) (target : Target) (e : String)
    (herr : (get_socket env now st target).1 = .error e) :
    (get_socket env now st target).2.outbound_sockets = st.outbound_sockets := by
  cases hls : lookupSock st.outbound_sockets target with
  | none => exact get_socket_miss_err env now st target e hls herr
  | some p =>
      obtain ⟨sid, tm⟩ := p
      by_cases hc : 0 ≤ env.zmq_target_expire ∧ env.zmq_target_expire ≤ now - tm
      · exact (get_socket_hit_refresh_err env now st target sid tm e hls hc
          (get_socket_hit_refresh_err_inv env now st target sid tm e hls hc herr)).2
      · rw [get_socket_hit_fresh env now st target sid tm hls hc] at herr
        simp at herr

/-- Witness for C7: after a failing call on the empty pool the dictionary is
still empty. -/
theorem C7_witness :
    (get_socket envErr 0 st0 "t").2.outbound_sockets = st0.outbound_sockets :=
  C7_failed_get_socket_leaves_cache_unchanged envErr 0 st0 "t" "discovery boom" (by rfl)

/-- C3: for a cached target, `get_socket` refreshes exactly when the expiry
threshold is non-negative and `now - tm` has reached it: the refresh performs
one matchmaker lookup, appends the returned hosts to the existing socket
(accumulating, not resetting) and re-stamps the entry with `now`; below the
threshold nothing changes; a negative threshold never refreshes; a zero
threshold refreshes on every call (given time moved forward). -/
theorem C3_expiry_threshold_semantics (env : Env) (now : Int) (st : SMState)
    (target : Target) (sid : Nat) (tm : Int) (hosts : List Host)
    (hhit : lookupSock st.outbound_sockets target = some (sid, tm))
    (hmm : env.get_hosts target env.listener_type_str = .ok hosts)
    (hconn : ∀ h ∈ hosts, env.connect_ok h = true)
    (hmono : tm ≤ now) :
    ((0 ≤ env.zmq_target_expire ∧ env.zmq_target_expire ≤ now - tm) →
       get_socket env now st target =
         (.ok sid, ⟨modifyNthSock st.sockets sid (appendHosts hosts),
                    storeSock target sid now st.outbound_sockets,
                    st.lookups ++ [(target, env.listener_type_str)]⟩)) ∧
    (0 ≤ env.zmq_target_expire → now - tm < env.zmq_target_expire →
       get_socket env now st target = (.ok sid, st)) ∧
    (env.zmq_target_expire < 0 → get_socket env now st target = (.ok sid, st)) ∧
    (env.zmq_target_expire = 0 →
       get_socket env now st target =
         (.ok sid, ⟨modifyNthSock st.sockets sid (appendHosts hosts),
                    storeSock target sid now st.outbound_sockets,
                    st.lookups ++ [(target, env.listener_type_str)]⟩)) := by
  refine ⟨?_, ?_, ?_, ?_⟩
  · intro hc
    exact get_socket_hit_refresh_ok env now st target sid tm hosts hhit hc hmm hconn
  · intro h0 h1
    exact get_socket_hit_fresh env now st target sid tm hhit
      (fun hc => absurd h1 (not_lt.mpr hc.2))
  · intro hneg
    exact get_socket_hit_fresh env now st target sid tm hhit
      (fun hc => absurd hneg (not_lt.mpr hc.1))
  · intro hz
    exact get_socket_hit_refresh_ok env now st target sid tm hosts hhit
      ⟨by omega, by omega⟩ hmm hconn

/-- Witness for C3: the spec scenario at t = 12 with threshold 10 and an
entry stamped at t = 0: one refresh runs, the host is appended (now listed
twice) and the timestamp becomes 12. -/
theorem C3_witness :
    get_socket envTen 12 stB "topic-A" =
      (.ok 0, ⟨[⟨["host1", "host1"], [], false⟩], [("topic-A", 0, 12)],
               [("topic-A", "ROUTER"), ("topic-A", "ROUTER")]⟩) :=
  (C3_expiry_threshold_semantics envTen 12 stB "topic-A" 0 0 ["host1"] (by rfl) (by rfl)
    (fun h hm => rfl) (by decide)).1 (by decide)

/-- C10: when a triggered refresh fails, the entry keeps its previous socket
and previous timestamp (the timestamp is only re-stamped after the lookup and
all connects succeed), so at any later time the refresh condition holds again
and the next call re-attempts the refresh. -/
theorem C10_failed_refresh_keeps_entry_and_retriggers (env : Env) (now : Int)
    (st : SMState) (target : Target) (sid : Nat) (tm : Int) (e : String)
    (hhit : lookupSock st.outbound_sockets target = some (sid, tm))
    (hc : 0 ≤ env.zmq_target_expire ∧ env.zmq_target_expire ≤ now - tm)
    (herr : (get_hosts_and_connect env now st sid target).1 = .error e) :
    (get_socket env now st target).1 = .error e ∧
    lookupSock (get_socket env now st target).2.outbound_sockets target = some (sid, tm) ∧
    (∀ now2, now ≤ now2 →
       0 ≤ env.zmq_target_expire ∧ env.zmq_target_expire ≤ now2 - tm) := by
  have h := get_socket_hit_refresh_err env now st target sid tm e hhit hc herr
  refine ⟨h.1, ?_, ?_⟩
  · rw [h.2]
    exact hhit
  · intro now2 hle
    have h2 := hc.2
    exact ⟨hc.1, by omega⟩

/-- Witness for C10: a failing refresh at t = 5 on an entry stamped at t = 0
propagates the error, keeps the entry at (socket 0, timestamp 0), and the
refresh condition holds again at t = 7. -/
theorem C10_witness :
    (get_socket envErr 5 stC "t").1 = .error "discovery boom" ∧
    lookupSock (get_socket envErr 5 stC "t").2.outbound_sockets "t" = some (0, 0) ∧
    (0 ≤ envErr.zmq_target_expire ∧ envErr.zmq_target_expire ≤ 7 - 0) :=
  have h := C10_failed_refresh_keeps_entry_and_retriggers envErr 5 stC "t" 0 0
    "discovery boom" (by rfl) (by decide) (by rfl)
  ⟨h.1, h.2.1, h.2.2 7 (by decide)⟩

/-- C1 counterexample: after `get_socket_to_broker` on "topic-A" from the
empty pool, a `get_socket` for the same target returns the very same broker
socket (id 0) and no second connection is created or tracked: only one
socket and one tracked entry exist, refuting that the two calls produce two
independent tracked connections. -/
theorem C1_counterexample :
    (get_socket_to_broker envOkEmpty 0 st0 "topic-A").1 = .ok 0 ∧
    get_socket envOkEmpty 1 stBroker "topic-A" = (.ok 0, stBroker) ∧
    stBroker.sockets.length = 1 ∧ stBroker.outbound_sockets.length = 1 :=
  ⟨rfl, rfl, rfl, rfl⟩

/-- C1 (amended): `get_socket_to_broker` bypasses the cache read and always
creates a brand-new tracked connection, but a subsequent `get_socket` for the
same target finds that cache entry and, whenever it succeeds, returns the
broker connection itself rather than a second independent one. -/
theorem C1_amended_broker_then_get_same_socket (env : Env) (now now2 : Int)
    (st : SMState) (target : Target) :
    (get_socket_to_broker env now st target).1 = .ok st.sockets.length ∧
    lookupSock (get_socket_to_broker env now st target).2.outbound_sockets target =
      some (st.sockets.length, now) ∧
    (∀ s, (get_socket env now2 (get_socket_to_broker env now st target).2 target).1 =
        .ok s → s = st.sockets.length) := by
  have hb := get_socket_to_broker_eq env now st target
  have hhit : lookupSock (get_socket_to_broker env now st target).2.outbound_sockets
      target = some (st.sockets.length, now) := by
    rw [hb]
    exact lookupSock_storeSock_self target st.sockets.length now st.outbound_sockets
  refine ⟨by rw [hb], hhit, ?_⟩
  intro s hok
  exact get_socket_ok_same_sid env now2 _ target st.sockets.length now hhit s hok

/-- Witness for the amended C1: concretely, the broker call returns socket 0
and the following `get_socket` also returns socket 0. -/
theorem C1_amended_witness :
    (get_socket_to_broker envOkEmpty 0 st0 "topic-A").1 = .ok 0 ∧ (0 : Nat) = 0 :=
  have h := C1_amended_broker_then_get_same_socket envOkEmpty 0 1 st0 "topic-A"
  ⟨h.1, h.2.2 0 (by rfl)⟩

/-- C2 counterexample: two `get_socket_to_broker` calls for the same target
create two sockets but track only the second; `cleanup` closes socket 1 and
leaves socket 0 (created by the pool) open, refuting that cleanup closes
every connection ever created by the pool. -/
theorem C2_counterexample :
    (cleanup stBroker2).sockets.get? 0 = some ⟨[], ["tcp://broker:1234"], false⟩ ∧
    (cleanup stBroker2).sockets.get? 1 = some ⟨[], ["tcp://broker:1234"], true⟩ :=
  ⟨rfl, rfl⟩

/-- C2 (amended): `cleanup` closes every connection still tracked by the pool
at the time of the call (including broker-path ones), and a second `cleanup`
is a no-op: it changes nothing and cannot raise. -/
theorem C2_amended_cleanup_closes_tracked_and_idem (st : SMState) :
    (∀ key sid tm, lookupSock st.outbound_sockets key = some (sid, tm) →
       ∀ s, (cleanup st).sockets.get? sid = some s → s.closed = true) ∧
    cleanup (cleanup st) = cleanup st :=
  ⟨fun key sid tm h => cleanup_closes_tracked st key sid tm h, cleanup_idem st⟩

/-- Witness for the amended C2 on the double-broker state: the tracked socket
1 is closed after cleanup, and cleaning up twice equals cleaning up once. -/
theorem C2_witness :
    ((SocketState.mk [] ["tcp://broker:1234"] true).closed = true) ∧
    cleanup (cleanup stBroker2) = cleanup stBroker2 :=
  ⟨(C2_amended_cleanup_closes_tracked_and_idem stBroker2).1 "topic-A" 1 1 (by rfl) _
      (by rfl),
   (C2_amended_cleanup_closes_tracked_and_idem stBroker2).2⟩

/-- C9: `get_socket_to_broker` overwrites the tracked entry for the target
key (last writer wins) and leaves every other key unchanged; the socket
previously tracked under that key is then tracked nowhere, so a later
`cleanup` leaves it untouched (it is never closed by the pool). -/
theorem C9_broker_overwrites_tracking (env : Env) (now : Int) (st : SMState)
    (target : Target) (oldSid : Nat) (tm : Int)
    (hold : lookupSock st.outbound_sockets target = some (oldSid, tm))
    (hnodup : (st.outbound_sockets.map Prod.fst).Nodup)
    (honly : ∀ e ∈ st.outbound_sockets, e.2.1 = oldSid → e.1 = target)
    (hlt : oldSid < st.sockets.length) :
    lookupSock (get_socket_to_broker env now st target).2.outbound_sockets target =
      some (st.sockets.length, now) ∧
    (∀ k, k ≠ target →
       lookupSock (get_socket_to_broker env now st target).2.outbound_sockets k =
         lookupSock st.outbound_sockets k) ∧
    (∀ e ∈ (get_socket_to_broker env now st target).2.outbound_sockets,
       e.2.1 ≠ oldSid) ∧
    (cleanup (get_socket_to_broker env now st target).2).sockets.get? oldSid =
      st.sockets.get? oldSid := by
  have hb := get_socket_to_broker_eq env now st target
  have hout : (get_socket_to_broker env now st target).2.outbound_sockets =
      storeSock target st.sockets.length now st.outbound_sockets := by rw [hb]
  have hsk : (get_socket_to_broker env now st target).2.sockets =
      st.sockets ++ [⟨[], [env.broker_address], false⟩] := by rw [hb]
  have hsids : ∀ e ∈ (get_socket_to_broker env now st target).2.outbound_sockets,
      e.2.1 ≠ oldSid := by
    intro e he
    rw [hout] at he
    rcases mem_storeSock_of_nodup target st.sockets.length now st.outbound_sockets
      hnodup e he with h1 | h1
    · rw [h1]
      show st.sockets.length ≠ oldSid
      omega
    · intro hesid
      exact h1.2 (honly e h1.1 hesid)
  have hmem : oldSid ∉ (get_socket_to_broker env now st target).2.outbound_sockets.map
      (fun e => e.2.1) := by
    intro hmem
    rcases List.mem_map.mp hmem with ⟨e, he, hesid⟩
    exact hsids e he hesid
  refine ⟨?_, ?_, hsids, ?_⟩
  · rw [hout]
    exact lookupSock_storeSock_self target st.sockets.length now st.outbound_sockets
  · intro k hk
    rw [hout]
    exact lookupSock_storeSock_other target k st.sockets.length now hk st.outbound_sockets
  · rw [cleanup_get?, if_neg hmem, hsk]
    exact List.get?_append hlt

/-- Witness for C9: overwriting the entry of `stA` (socket 0 tracked for
"topic-A") re-tracks the key to socket 1 with the new timestamp, and cleanup
of the new state leaves socket 0 exactly as it was (open). -/
theorem C9_witness :
    lookupSock (get_socket_to_broker envOkEmpty 5 stA "topic-A").2.outbound_sockets
      "topic-A" = some (1, 5) ∧
    (cleanup (get_socket_to_broker envOkEmpty 5 stA "topic-A").2).sockets.get? 0 =
      stA.sockets.get? 0 :=
  have h := C9_broker_overwrites_tracking envOkEmpty 5 stA "topic-A" 0 0 (by rfl)
    (by decide) (by decide) (by decide)
  ⟨h.1, h.2.2.2⟩
